import Mathlib

/-!
Shallow embedding of the TrackIt scheduled price-check engine.

Source files embedded here:
- src/src/services/priceHelper.js  (calculatePriceChange, shouldTriggerAlert, MIN_DROP_PERCENT)
- src/src/services/plans.js        (PLANS, getPlanById, getUserPlan)
- src/src/scheduler/cronJobs.js    (isEligibleForCheck, shouldSendNotification,
                                    scrapeWithRetry, runPriceCheckByInterval, runStats)

Modelling conventions:
- JavaScript numbers that hold prices, percentages and millisecond timestamps are
  modelled as rationals (Rat).  Nullable values are Option Rat; JS truthiness of a
  number x is x not equal to 0, of null/undefined is false (optTruthy below).
- Strings used purely for display (reasons, formatted currency, emoji) are modelled
  as small inductive enums naming the return site that produced them; they carry no
  decision content in the source either.
- The external collaborators (the scraper in src/scraper, the Telegram sendMessage,
  and the db/queries persistence layer, all outside the embedded core) are modelled
  as oracles attached to each sweep candidate: a per-attempt fetch outcome, and
  throw flags for each persistence or send call.  Persistence writes are recorded
  as an append-only event log.
- `new Date()` / `now.getDay()` are modelled by an explicit Instant parameter
  (millisecond timestamp plus day of week).
-/

namespace TrackIt

/-- JS truthiness of a nullable number: null/undefined and 0 are falsy. -/
def optTruthy : Option ℚ → Bool
  | some x => decide (x ≠ 0)
  | none => false

/-- The direction field of calculatePriceChange: the strings down / up / unchanged. -/
inductive Direction
  | down
  | up
  | unchanged
deriving DecidableEq

/-- Result object of calculatePriceChange (priceHelper.js lines 19-54).  The
formattedAbsolute / formattedPercent / emoji display strings are omitted; the
guard return of the source omits isDropped and isIncreased, which therefore read
as undefined (falsy) there, modelled as false. -/
structure PriceChange where
  absoluteChange : ℚ
  percentChange : ℚ
  direction : Direction
  isMeaningful : Bool
  isDropped : Bool
  isIncreased : Bool
deriving DecidableEq

/-- MIN_DROP_PERCENT (priceHelper.js line 8) with the env override unset: the
default 2.0. -/
def MIN_DROP_PERCENT : ℚ := 2

/-- The neutral result returned by the guard of calculatePriceChange. -/
def neutralPriceChange : PriceChange :=
  { absoluteChange := 0
    percentChange := 0
    direction := Direction.unchanged
    isMeaningful := false
    isDropped := false
    isIncreased := false }

/-- calculatePriceChange (priceHelper.js lines 19-54).  The guard
`!oldPrice || !newPrice || oldPrice <= 0 || newPrice <= 0` is modelled with JS
truthiness; 0.01 is the rational 1/100. -/
def calculatePriceChange (oldPrice newPrice : Option ℚ) : PriceChange :=
  if ¬ optTruthy oldPrice ∨ ¬ optTruthy newPrice ∨
      oldPrice.getD 0 ≤ 0 ∨ newPrice.getD 0 ≤ 0 then
    neutralPriceChange
  else
    let o := oldPrice.getD 0
    let n := newPrice.getD 0
    let absoluteChange := o - n
    let percentChange := absoluteChange / o * 100
    let absPercent := |percentChange|
    let direction : Direction :=
      if 1 / 100 < absoluteChange then Direction.down
      else if absoluteChange < -(1 / 100) then Direction.up
      else Direction.unchanged
    { absoluteChange := absoluteChange
      percentChange := percentChange
      direction := direction
      isMeaningful := decide (direction = Direction.down ∧ MIN_DROP_PERCENT ≤ absPercent)
      isDropped := decide (direction = Direction.down)
      isIncreased := decide (direction = Direction.up) }

/-- The priority field of shouldTriggerAlert results: high or normal (absent on
no-alert returns). -/
inductive Priority
  | high
  | normal
deriving DecidableEq

/-- Which return site of shouldTriggerAlert produced the reason string. -/
inductive AlertReason
  | priceDidNotDrop
  | alreadyAlerted
  | targetReached
  | meaningfulDrop
  | dropBelowThreshold
deriving DecidableEq

/-- Result object of shouldTriggerAlert (priceHelper.js lines 200-243). -/
structure AlertDecision where
  shouldAlert : Bool
  reason : AlertReason
  priceChange : PriceChange
  priority : Option Priority
deriving DecidableEq

/-- Tracked-product row fields consumed by the decision and eligibility logic.
Display-only and externally-owned fields (title, amazon_url, currency,
telegram_id) are omitted; the fetch for a candidate is modelled by a per-candidate
oracle instead of the url. -/
structure Product where
  id : ℕ
  current_price : Option ℚ
  target_price : Option ℚ
  last_alert_price : Option ℚ
  last_checked_at : Option ℚ
deriving DecidableEq

/-- shouldTriggerAlert (priceHelper.js lines 200-243), the §4.4 alert decision
engine.  JS comparisons such as `newPrice >= product.last_alert_price` are only
reached under truthiness of the left operand of `&&`, so getD 0 is exact there. -/
def shouldTriggerAlert (product : Product) (oldPrice newPrice : Option ℚ) :
    AlertDecision :=
  let priceChange := calculatePriceChange oldPrice newPrice
  if ¬ priceChange.isDropped then
    { shouldAlert := false, reason := AlertReason.priceDidNotDrop
      priceChange := priceChange, priority := none }
  else if optTruthy product.last_alert_price ∧
      product.last_alert_price.getD 0 ≤ newPrice.getD 0 then
    { shouldAlert := false, reason := AlertReason.alreadyAlerted
      priceChange := priceChange, priority := none }
  else if optTruthy product.target_price ∧
      newPrice.getD 0 ≤ product.target_price.getD 0 then
    { shouldAlert := true, reason := AlertReason.targetReached
      priceChange := priceChange, priority := some Priority.high }
  else if priceChange.isMeaningful then
    { shouldAlert := true, reason := AlertReason.meaningfulDrop
      priceChange := priceChange, priority := some Priority.normal }
  else
    { shouldAlert := false, reason := AlertReason.dropBelowThreshold
      priceChange := priceChange, priority := none }

/-- Which return site of shouldSendNotification produced the reason string
(the empty string for the two no-alert fallthrough returns). -/
inductive NotifyReason
  | empty
  | alreadyAlerted
  | targetReached
  | priceDropped
  | dropStillAboveTarget
deriving DecidableEq

/-- Result object of shouldSendNotification (cronJobs.js lines 300-342). -/
structure NotifyDecision where
  notify : Bool
  reason : NotifyReason
deriving DecidableEq

/-- `x.toFixed(1)` followed by parseFloat, for nonnegative finite x: round to the
nearest tenth, ties away from zero upward (ECMA toFixed picks the larger n on a
tie, which is Mathlib round). -/
def toFixed1 (x : ℚ) : ℚ := (round (x * 10) : ℤ) / 10

/-- shouldSendNotification (cronJobs.js lines 300-342): the decision the sweep
actually uses.  Case 2 computes dropPercentage only for the reason string; case 3
compares `parseFloat(dropPercentage) >= 5` where dropPercentage is
`((old-new)/old*100).toFixed(1)`. -/
def shouldSendNotification (product : Product) (oldPrice newPrice : Option ℚ) :
    NotifyDecision :=
  if ¬ optTruthy newPrice ∨ ¬ optTruthy oldPrice then
    { notify := false, reason := NotifyReason.empty }
  else
    let o := oldPrice.getD 0
    let n := newPrice.getD 0
    if optTruthy product.last_alert_price ∧
        product.last_alert_price.getD 0 ≤ n then
      { notify := false, reason := NotifyReason.alreadyAlerted }
    else if optTruthy product.target_price ∧ n ≤ product.target_price.getD 0 then
      { notify := true, reason := NotifyReason.targetReached }
    else if ¬ optTruthy product.target_price ∧ n < o then
      { notify := true, reason := NotifyReason.priceDropped }
    else if optTruthy product.target_price ∧ n < o ∧
        5 ≤ toFixed1 ((o - n) / o * 100) then
      { notify := true, reason := NotifyReason.dropStillAboveTarget }
    else
      { notify := false, reason := NotifyReason.empty }

/-- Plan identifiers from PLANS (plans.js lines 12-49).  getPlanById sends any
unrecognized id to FREE, so the two defined plans suffice. -/
inductive PlanId
  | FREE
  | PRO
deriving DecidableEq

/-- Check intervals from CHECK_INTERVALS / the isEligibleForCheck switch.  The
switch's default branch treats any unrecognized string as WEEKLY, so the three
recognized intervals suffice. -/
inductive CheckInterval
  | HOURLY
  | DAILY
  | WEEKLY
deriving DecidableEq

/-- The plan fields the scheduler consumes (plans.js lines 12-49); cron strings,
feature lists and prices are display-only and omitted. -/
structure Plan where
  id : PlanId
  maxProducts : ℕ
  checkInterval : CheckInterval
deriving DecidableEq

/-- PLANS.FREE (plans.js lines 13-29). -/
def PLANS_FREE : Plan :=
  { id := PlanId.FREE, maxProducts := 1, checkInterval := CheckInterval.WEEKLY }

/-- PLANS.PRO (plans.js lines 31-48). -/
def PLANS_PRO : Plan :=
  { id := PlanId.PRO, maxProducts := 10, checkInterval := CheckInterval.DAILY }

/-- getPlanById (plans.js lines 82-92): unknown or missing plan id defaults to
FREE. -/
def getPlanById : Option PlanId → Plan
  | some PlanId.PRO => PLANS_PRO
  | some PlanId.FREE => PLANS_FREE
  | none => PLANS_FREE

/-- User row fields consumed by eligibility (cronJobs.js lines 181-187): the plan
id and the per-user check_interval override. -/
structure User where
  plan : Option PlanId
  check_interval : Option CheckInterval
deriving DecidableEq

/-- getUserPlan (plans.js lines 99-105): falsy user.plan defaults to FREE. -/
def getUserPlan (user : User) : Plan :=
  match user.plan with
  | none => PLANS_FREE
  | some p => getPlanById (some p)

/-- The `new Date()` taken at the top of isEligibleForCheck: millisecond
timestamp plus `getDay()` (0 = Sunday). -/
structure Instant where
  ms : ℚ
  dayOfWeek : Fin 7
deriving DecidableEq

/-- Which return site of isEligibleForCheck produced the reason string. -/
inductive EligReason
  | hourlyTooSoon
  | hourlyEligible
  | alreadyCheckedToday
  | dailyEligible
  | waitingForSunday
  | alreadyCheckedThisWeek
  | weeklyEligible
deriving DecidableEq

/-- Result object of isEligibleForCheck. -/
structure Eligibility where
  eligible : Bool
  reason : EligReason
deriving DecidableEq

/-- `user?.check_interval || plan.checkInterval` (cronJobs.js line 79). -/
def effectiveCheckInterval (user : User) : CheckInterval :=
  user.check_interval.getD (getUserPlan user).checkInterval

/-- isEligibleForCheck (cronJobs.js lines 73-122).  `(now - lastChecked)` is the
millisecond difference; the source's `if (lastChecked) { if (h < bound) return
ineligible } return eligible` shape is the nested match/if below. -/
def isEligibleForCheck (now : Instant) (user : User) (product : Product) :
    Eligibility :=
  match effectiveCheckInterval user with
  | CheckInterval.HOURLY =>
    match product.last_checked_at with
    | some t =>
      if (now.ms - t) / (1000 * 60 * 60) < 1 then
        { eligible := false, reason := EligReason.hourlyTooSoon }
      else
        { eligible := true, reason := EligReason.hourlyEligible }
    | none => { eligible := true, reason := EligReason.hourlyEligible }
  | CheckInterval.DAILY =>
    match product.last_checked_at with
    | some t =>
      if (now.ms - t) / (1000 * 60 * 60) < 20 then
        { eligible := false, reason := EligReason.alreadyCheckedToday }
      else
        { eligible := true, reason := EligReason.dailyEligible }
    | none => { eligible := true, reason := EligReason.dailyEligible }
  | CheckInterval.WEEKLY =>
    if now.dayOfWeek ≠ 0 then
      { eligible := false, reason := EligReason.waitingForSunday }
    else
      match product.last_checked_at with
      | some t =>
        if (now.ms - t) / (1000 * 60 * 60 * 24) < 6 then
          { eligible := false, reason := EligReason.alreadyCheckedThisWeek }
        else
          { eligible := true, reason := EligReason.weeklyEligible }
      | none => { eligible := true, reason := EligReason.weeklyEligible }

/-- The object scrapeAmazonProduct resolves with; only the fields the scheduler
reads (price, and title forwarded to updateProductPrice) are modelled. -/
structure ScrapedData where
  title : Option String
  price : Option ℚ
deriving DecidableEq

/-- One awaited call of scrapeAmazonProduct: it either throws or returns data
(possibly without a usable price). -/
inductive FetchOutcome
  | throws
  | ok (result : ScrapedData)
deriving DecidableEq

/-- `result && result.price`: the attempt yielded data with a truthy price. -/
def usableOutcome : FetchOutcome → Bool
  | FetchOutcome.ok result => optTruthy result.price
  | FetchOutcome.throws => false

/-- The attempt loop of scrapeWithRetry (cronJobs.js lines 410-429), with the
remaining attempt budget as fuel and the current attempt index explicit; returns
the result together with the number of scrapeAmazonProduct invocations made.
The inter-attempt jitter delay has no observable effect and is dropped. -/
def scrapeWithRetryGo (scrape : ℕ → FetchOutcome) (attempt : ℕ) :
    ℕ → Option ScrapedData × ℕ
  | 0 => (none, 0)
  | fuel + 1 =>
    match scrape attempt with
    | FetchOutcome.ok result =>
      if optTruthy result.price then (some result, 1)
      else
        let rest := scrapeWithRetryGo scrape (attempt + 1) fuel
        (rest.1, rest.2 + 1)
    | FetchOutcome.throws =>
      let rest := scrapeWithRetryGo scrape (attempt + 1) fuel
      (rest.1, rest.2 + 1)

/-- scrapeWithRetry (cronJobs.js lines 407-434): attempts 0..retries, returns the
first result carrying a usable price, and null once all attempts are exhausted;
a throwing attempt is caught inside the loop. -/
def scrapeWithRetry (scrape : ℕ → FetchOutcome) (retries : ℕ) :
    Option ScrapedData :=
  (scrapeWithRetryGo scrape 0 (retries + 1)).1

/-- Number of scrapeAmazonProduct invocations a scrapeWithRetry call performs. -/
def scrapeCallCount (scrape : ℕ → FetchOutcome) (retries : ℕ) : ℕ :=
  (scrapeWithRetryGo scrape 0 (retries + 1)).2

/-- The runStats object (cronJobs.js lines 18-25 and its reset at lines 150-157).
lastRun holds the reset timestamp.  These six fields are all the counters the
sweep maintains. -/
structure RunStats where
  lastRun : Option ℚ
  productsChecked : ℕ
  productsSkipped : ℕ
  priceDrops : ℕ
  notificationsSent : ℕ
  errors : ℕ
deriving DecidableEq

/-- One persistence call made by the sweep (db/queries is an external
collaborator; the log records each committed write in order). -/
inductive WriteEvent
  | priceUpdate (id : ℕ) (price : ℚ) (title : Option String)
  | historyAppend (id : ℕ) (price : ℚ)
  | alertUpdate (id : ℕ) (price : ℚ)
deriving DecidableEq

/-- Observable state of one sweep: the statistics plus the committed writes. -/
structure SweepState where
  stats : RunStats
  writes : List WriteEvent
deriving DecidableEq

/-- One candidate of a sweep: the owning user's fields, the product row, and the
behaviour of the external collaborators for this item — the per-attempt fetch
outcome and whether each awaited external call throws. -/
structure Candidate where
  user : User
  product : Product
  fetch : ℕ → FetchOutcome
  updatePriceThrows : Bool
  addHistoryThrows : Bool
  sendMessageThrows : Bool
  updateAlertThrows : Bool

/-- The per-product loop body of runPriceCheckByInterval (cronJobs.js lines
203-273).  The pacing delay is unobservable and dropped.  An external call that
throws lands in the matching catch: the outer catch (lines 267-272) increments
errors; the inner notification catch (lines 261-264) only logs.  Writes already
committed before a throw stay committed. -/
def processProduct (now : Instant) (s : SweepState) (c : Candidate) :
    SweepState :=
  let eligibility := isEligibleForCheck now c.user c.product
  if eligibility.eligible = false then
    { s with stats := { s.stats with productsSkipped := s.stats.productsSkipped + 1 } }
  else
    match scrapeWithRetry c.fetch 1 with
    | none =>
      { s with stats := { s.stats with errors := s.stats.errors + 1 } }
    | some scrapedData =>
      if optTruthy scrapedData.price = false then
        { s with stats := { s.stats with errors := s.stats.errors + 1 } }
      else
        let newPrice := scrapedData.price.getD 0
        if c.updatePriceThrows then
          { s with stats := { s.stats with errors := s.stats.errors + 1 } }
        else
          let s1 : SweepState :=
            { s with writes := s.writes ++
                [WriteEvent.priceUpdate c.product.id newPrice scrapedData.title] }
          if c.addHistoryThrows then
            { s1 with stats := { s1.stats with errors := s1.stats.errors + 1 } }
          else
            let s2 : SweepState :=
              { s1 with
                writes := s1.writes ++
                  [WriteEvent.historyAppend c.product.id newPrice]
                stats := { s1.stats with
                  productsChecked := s1.stats.productsChecked + 1 } }
            let shouldNotify :=
              shouldSendNotification c.product c.product.current_price
                scrapedData.price
            if shouldNotify.notify then
              let s3 : SweepState :=
                { s2 with stats := { s2.stats with
                    priceDrops := s2.stats.priceDrops + 1 } }
              if c.sendMessageThrows then s3
              else if c.updateAlertThrows then s3
              else
                { s3 with
                  writes := s3.writes ++
                    [WriteEvent.alertUpdate c.product.id newPrice]
                  stats := { s3.stats with
                    notificationsSent := s3.stats.notificationsSent + 1 } }
            else s2

/-- The processing loops of runPriceCheckByInterval from a given state: the
grouped per-user iteration visits each candidate once in a fixed order, so it is
the fold of processProduct over the candidates in processing order. -/
def runSweepFrom (now : Instant) (s : SweepState) (cs : List Candidate) :
    SweepState :=
  cs.foldl (processProduct now) s

/-- The stats reset at the top of runPriceCheckByInterval (lines 150-157). -/
def initialRunStats (now : Instant) : RunStats :=
  { lastRun := some now.ms
    productsChecked := 0
    productsSkipped := 0
    priceDrops := 0
    notificationsSent := 0
    errors := 0 }

/-- runPriceCheckByInterval (cronJobs.js lines 142-290) on an already-loaded
candidate list (queries.getActiveTrackedProductsByInterval is external): reset
the stats, then process every candidate. -/
def runPriceCheckByInterval (now : Instant) (cs : List Candidate) : SweepState :=
  runSweepFrom now { stats := initialRunStats now, writes := [] } cs

/-!
Concrete instances used by witnesses and counterexamples.
-/

/-- A Monday instant (dayOfWeek 1) at 200000000 ms. -/
def cNow : Instant := { ms := 200000000, dayOfWeek := 1 }

/-- A PRO user with an explicit DAILY check-interval override. -/
def cUserDaily : User := { plan := some PlanId.PRO, check_interval := some CheckInterval.DAILY }

/-- A never-checked product at current price 100 with no target and no prior
alert. -/
def cProduct (i : ℕ) : Product :=
  { id := i, current_price := some 100, target_price := none
    last_alert_price := none, last_checked_at := none }

/-- A fetch oracle that succeeds on every attempt with price 90. -/
def cFetchOk : ℕ → FetchOutcome := fun _ => FetchOutcome.ok { title := none, price := some 90 }

/-- A fetch oracle that throws on every attempt. -/
def cFetchThrows : ℕ → FetchOutcome := fun _ => FetchOutcome.throws

/-- An eligible candidate whose external calls all succeed. -/
def cCandOk (i : ℕ) : Candidate :=
  { user := cUserDaily, product := cProduct i, fetch := cFetchOk
    updatePriceThrows := false, addHistoryThrows := false
    sendMessageThrows := false, updateAlertThrows := false }

/-- An eligible candidate whose every fetch attempt throws. -/
def cCandThrows (i : ℕ) : Candidate :=
  { user := cUserDaily, product := cProduct i, fetch := cFetchThrows
    updatePriceThrows := false, addHistoryThrows := false
    sendMessageThrows := false, updateAlertThrows := false }

/-- An eligible candidate whose notification send throws. -/
def cCandNotifyFail (i : ℕ) : Candidate :=
  { user := cUserDaily, product := cProduct i, fetch := cFetchOk
    updatePriceThrows := false, addHistoryThrows := false
    sendMessageThrows := true, updateAlertThrows := false }

/-- The sweep state after the first candidate of the three-candidate isolation
scenario. -/
def cStateAfterFirst : SweepState :=
  processProduct cNow { stats := initialRunStats cNow, writes := [] } (cCandOk 1)

/-- A product with target price 500 and no prior alert, for the non-drop
counterexample. -/
def cTargetProduct : Product :=
  { id := 1, current_price := some 450, target_price := some 500
    last_alert_price := none, last_checked_at := none }

/-- A product with target 500, current price 485 and no prior alert, for the
target-priority witness. -/
def cTargetProduct485 : Product :=
  { id := 1, current_price := some 485, target_price := some 500
    last_alert_price := none, last_checked_at := none }

/-- A product with last-alerted price 100 and target 500, for the suppression
witness. -/
def cSuppressedProduct : Product :=
  { id := 1, current_price := some 200, target_price := some 500
    last_alert_price := some 100, last_checked_at := none }

/-- A fetch oracle that throws on attempt 0 and succeeds with price 100
afterwards, for the retry witness. -/
def cScrapeSecondTry : ℕ → FetchOutcome :=
  fun i => if i = 0 then FetchOutcome.throws else FetchOutcome.ok { title := none, price := some 100 }

/-- A product last checked 20 hours and 1 minute before cNow. -/
def cProductChecked20h1m : Product :=
  { id := 1, current_price := some 100, target_price := none
    last_alert_price := none, last_checked_at := some (200000000 - 72060000) }

/-- A product last checked 19 hours before cNow. -/
def cProductChecked19h : Product :=
  { id := 2, current_price := some 100, target_price := none
    last_alert_price := none, last_checked_at := some (200000000 - 68400000) }

/-!
Helper lemmas shared by the claim theorems.
-/

/-- Characterization of calculatePriceChange whenever its isDropped field is
true: both prices are present and positive, the fall exceeds the 0.01 tolerance,
the direction is down, percentChange is the signed drop percentage, and
isMeaningful compares that percentage against MIN_DROP_PERCENT. -/
theorem calculatePriceChange_isDropped_spec (oldPrice newPrice : Option ℚ)
    (h : (calculatePriceChange oldPrice newPrice).isDropped = true) :
    ∃ o n, oldPrice = some o ∧ newPrice = some n ∧ 0 < o ∧ 0 < n ∧
      1 / 100 < o - n ∧
      (calculatePriceChange oldPrice newPrice).direction = Direction.down ∧
      (calculatePriceChange oldPrice newPrice).percentChange = (o - n) / o * 100 ∧
      ((calculatePriceChange oldPrice newPrice).isMeaningful = true ↔
        MIN_DROP_PERCENT ≤ (o - n) / o * 100) := by
  rcases oldPrice with _ | o
  · simp [calculatePriceChange, optTruthy, neutralPriceChange] at h
  rcases newPrice with _ | n
  · simp [calculatePriceChange, optTruthy, neutralPriceChange] at h
  by_cases ho : o ≤ 0
  · simp [calculatePriceChange, optTruthy, neutralPriceChange, ho] at h
  by_cases hn : n ≤ 0
  · simp [calculatePriceChange, optTruthy, neutralPriceChange, hn] at h
  have hopos : 0 < o := lt_of_not_le ho
  have hnpos : 0 < n := lt_of_not_le hn
  have hguard : ¬ (¬ optTruthy (some o) = true ∨ ¬ optTruthy (some n) = true ∨
      (some o).getD 0 ≤ 0 ∨ (some n).getD 0 ≤ 0) := by
    push_neg
    refine ⟨by simp [optTruthy, hopos.ne'], by simp [optTruthy, hnpos.ne'], ?_, ?_⟩
    · simpa using hopos
    · simpa using hnpos
  unfold calculatePriceChange at h ⊢
  rw [if_neg hguard] at h ⊢
  dsimp only [Option.getD] at h ⊢
  by_cases hd : 1 / 100 < o - n
  · have hpcpos : 0 < (o - n) / o * 100 := by
      have h1 : 0 < o - n := lt_trans (by norm_num) hd
      have h2 : 0 < (o - n) / o := div_pos h1 hopos
      positivity
    rw [if_pos hd]
    refine ⟨o, n, rfl, rfl, hopos, hnpos, hd, rfl, rfl, ?_⟩
    simp [abs_of_pos hpcpos]
  · exfalso
    rw [if_neg hd] at h
    by_cases hu : o - n < -(1 / 100)
    · rw [if_pos hu] at h
      simp at h
    · rw [if_neg hu] at h
      simp at h

/-- The guard of calculatePriceChange is false when both prices are positive. -/
theorem calculatePriceChange_guard_false (o n : ℚ) (ho : 0 < o) (hn : 0 < n) :
    ¬ (¬ optTruthy (some o) = true ∨ ¬ optTruthy (some n) = true ∨
      (some o).getD 0 ≤ 0 ∨ (some n).getD 0 ≤ 0) := by
  push_neg
  refine ⟨by simp [optTruthy, ho.ne'], by simp [optTruthy, hn.ne'], ?_, ?_⟩
  · simpa using ho
  · simpa using hn

/-- Claim C9: for positive prices, the computed direction is down exactly when
the fall exceeds 0.01, up exactly when the rise exceeds 0.01, and unchanged
exactly when the difference lies within the 0.01 tolerance band. -/
theorem calculatePriceChange_direction_spec (o n : ℚ) (ho : 0 < o) (hn : 0 < n) :
    ((calculatePriceChange (some o) (some n)).direction = Direction.down ↔
      1 / 100 < o - n) ∧
    ((calculatePriceChange (some o) (some n)).direction = Direction.up ↔
      o - n < -(1 / 100)) ∧
    ((calculatePriceChange (some o) (some n)).direction = Direction.unchanged ↔
      -(1 / 100) ≤ o - n ∧ o - n ≤ 1 / 100) := by
  unfold calculatePriceChange
  rw [if_neg (calculatePriceChange_guard_false o n ho hn)]
  dsimp only [Option.getD]
  by_cases hd : 1 / 100 < o - n
  · rw [if_pos hd]
    refine ⟨iff_of_true rfl hd, iff_of_false (by simp) (by linarith), ?_⟩
    exact iff_of_false (by simp) (fun hcon => absurd hd (not_lt.mpr hcon.2))
  · by_cases hu : o - n < -(1 / 100)
    · rw [if_neg hd, if_pos hu]
      refine ⟨iff_of_false (by simp) hd, iff_of_true rfl hu, ?_⟩
      exact iff_of_false (by simp) (fun hcon => absurd hu (not_lt.mpr hcon.1))
    · rw [if_neg hd, if_neg hu]
      exact ⟨iff_of_false (by simp) hd, iff_of_false (by simp) hu,
        iff_of_true rfl ⟨not_lt.mp hu, not_lt.mp hd⟩⟩

/-- Witness for C9 at oldPrice 100, newPrice 99: a one-unit fall is direction
down. -/
theorem calculatePriceChange_direction_spec_witness :
    (calculatePriceChange (some 100) (some 99)).direction = Direction.down :=
  (calculatePriceChange_direction_spec 100 99 (by norm_num) (by norm_num)).1.mpr
    (by norm_num)

/-- Claim C1 (amended): the §4.4 alert decision engine shouldTriggerAlert
returns no alert whenever the computed direction is not down. -/
theorem shouldTriggerAlert_no_alert_without_drop (product : Product)
    (oldPrice newPrice : Option ℚ)
    (h : (calculatePriceChange oldPrice newPrice).direction ≠ Direction.down) :
    (shouldTriggerAlert product oldPrice newPrice).shouldAlert = false := by
  cases hd : (calculatePriceChange oldPrice newPrice).isDropped with
  | false => simp [shouldTriggerAlert, hd]
  | true =>
    obtain ⟨o, n, -, -, -, -, -, hdir, -, -⟩ :=
      calculatePriceChange_isDropped_spec oldPrice newPrice hd
    exact absurd hdir h

/-- Witness for the amended C1 at the counterexample input itself: direction
unchanged, and the engine does not alert. -/
theorem shouldTriggerAlert_no_alert_without_drop_witness :
    (calculatePriceChange (some 450) (some 450)).direction ≠ Direction.down ∧
    (shouldTriggerAlert cTargetProduct (some 450) (some 450)).shouldAlert = false :=
  ⟨by norm_num [calculatePriceChange, optTruthy, neutralPriceChange]; decide,
    shouldTriggerAlert_no_alert_without_drop cTargetProduct (some 450) (some 450)
      (by norm_num [calculatePriceChange, optTruthy, neutralPriceChange]; decide)⟩

/-- Counterexample to C1 as stated: the decision the sweep actually uses,
shouldSendNotification, notifies for an unchanged price (direction not down)
when a target price is set and reached with no prior alert. -/
theorem sweep_decision_alerts_on_unchanged_price :
    (calculatePriceChange (some 450) (some 450)).direction ≠ Direction.down ∧
    (shouldSendNotification cTargetProduct (some 450) (some 450)).notify = true := by
  constructor
  · norm_num [calculatePriceChange, optTruthy, neutralPriceChange]
    decide
  · decide

/-- Claim C3: with a positive last-alerted price and newPrice at or above it,
neither the §4.4 engine shouldTriggerAlert nor the sweep's
shouldSendNotification alerts, regardless of target price. -/
theorem alert_suppressed_at_or_above_last_alert (product : Product)
    (oldPrice : Option ℚ) (l n : ℚ)
    (hLap : product.last_alert_price = some l) (hl : 0 < l) (hln : l ≤ n) :
    (shouldSendNotification product oldPrice (some n)).notify = false ∧
    (shouldTriggerAlert product oldPrice (some n)).shouldAlert = false := by
  have hsupp : optTruthy product.last_alert_price = true ∧
      product.last_alert_price.getD 0 ≤ (some n).getD 0 := by
    rw [hLap]
    exact ⟨by simp [optTruthy, hl.ne'], by simpa using hln⟩
  constructor
  · unfold shouldSendNotification
    by_cases hg : ¬ optTruthy (some n) = true ∨ ¬ optTruthy oldPrice = true
    · rw [if_pos hg]
    · rw [if_neg hg, if_pos hsupp]
  · cases hd : (calculatePriceChange oldPrice (some n)).isDropped with
    | false => simp [shouldTriggerAlert, hd]
    | true =>
      unfold shouldTriggerAlert
      rw [if_neg (not_not_intro hd), if_pos hsupp]

/-- Witness for C3: lastAlertedPrice 100, newPrice 100, target 500 — no alert
from either decision function. -/
theorem alert_suppressed_at_or_above_last_alert_witness :
    (shouldSendNotification cSuppressedProduct (some 200) (some 100)).notify = false ∧
    (shouldTriggerAlert cSuppressedProduct (some 200) (some 100)).shouldAlert = false :=
  alert_suppressed_at_or_above_last_alert cSuppressedProduct (some 200) 100 100
    rfl (by norm_num) le_rfl

/-- Claim C2: for a dropped price that is not duplicate-suppressed, with target
unset or not reached, shouldTriggerAlert alerts with priority normal exactly
when the drop percentage reaches MIN_DROP_PERCENT, and stays silent below it. -/
theorem meaningful_drop_alert_iff_threshold (product : Product)
    (oldPrice newPrice : Option ℚ)
    (hDrop : (calculatePriceChange oldPrice newPrice).isDropped = true)
    (hNoSuppress : ¬ (optTruthy product.last_alert_price = true ∧
      product.last_alert_price.getD 0 ≤ newPrice.getD 0))
    (hNoTarget : ¬ (optTruthy product.target_price = true ∧
      newPrice.getD 0 ≤ product.target_price.getD 0)) :
    (MIN_DROP_PERCENT ≤ (calculatePriceChange oldPrice newPrice).percentChange →
      (shouldTriggerAlert product oldPrice newPrice).shouldAlert = true ∧
      (shouldTriggerAlert product oldPrice newPrice).priority = some Priority.normal) ∧
    ((calculatePriceChange oldPrice newPrice).percentChange < MIN_DROP_PERCENT →
      (shouldTriggerAlert product oldPrice newPrice).shouldAlert = false) := by
  obtain ⟨o, n, ho', hn', hopos, hnpos, hgap, hdir, hpc, hmean⟩ :=
    calculatePriceChange_isDropped_spec oldPrice newPrice hDrop
  have halert : shouldTriggerAlert product oldPrice newPrice =
      (if (calculatePriceChange oldPrice newPrice).isMeaningful then
        { shouldAlert := true, reason := AlertReason.meaningfulDrop
          priceChange := calculatePriceChange oldPrice newPrice
          priority := some Priority.normal }
      else
        { shouldAlert := false, reason := AlertReason.dropBelowThreshold
          priceChange := calculatePriceChange oldPrice newPrice
          priority := none }) := by
    unfold shouldTriggerAlert
    rw [if_neg (not_not_intro hDrop), if_neg hNoSuppress, if_neg hNoTarget]
  constructor
  · intro hge
    rw [hpc] at hge
    rw [halert, if_pos (hmean.mpr hge)]
    exact ⟨rfl, rfl⟩
  · intro hlt
    rw [hpc] at hlt
    have hm : ¬ (calculatePriceChange oldPrice newPrice).isMeaningful = true :=
      fun hcon => absurd (hmean.mp hcon) (not_le.mpr hlt)
    rw [halert, if_neg hm]

/-- Witness for C2: with no target and no prior alert, a 10 percent drop
(100 to 90) alerts with priority normal, and a 1 percent drop (100 to 99)
does not alert. -/
theorem meaningful_drop_alert_iff_threshold_witness :
    ((shouldTriggerAlert (cProduct 1) (some 100) (some 90)).shouldAlert = true ∧
      (shouldTriggerAlert (cProduct 1) (some 100) (some 90)).priority =
        some Priority.normal) ∧
    (shouldTriggerAlert (cProduct 1) (some 100) (some 99)).shouldAlert = false :=
  ⟨(meaningful_drop_alert_iff_threshold (cProduct 1) (some 100) (some 90)
      (by norm_num [calculatePriceChange, optTruthy, neutralPriceChange])
      (by simp [cProduct, optTruthy])
      (by simp [cProduct, optTruthy])).1
      (by norm_num [calculatePriceChange, optTruthy, neutralPriceChange,
        MIN_DROP_PERCENT]),
   (meaningful_drop_alert_iff_threshold (cProduct 1) (some 100) (some 99)
      (by norm_num [calculatePriceChange, optTruthy, neutralPriceChange])
      (by simp [cProduct, optTruthy])
      (by simp [cProduct, optTruthy])).2
      (by norm_num [calculatePriceChange, optTruthy, neutralPriceChange,
        MIN_DROP_PERCENT])⟩

/-- Claim C7: target price set and reached by a dropped price with no prior
alert: shouldTriggerAlert alerts with priority high, and the sweep's
shouldSendNotification notifies as well. -/
theorem target_reached_alert_high (product : Product) (oldPrice : Option ℚ)
    (n t : ℚ)
    (hLap : product.last_alert_price = none)
    (hTarget : product.target_price = some t) (ht : 0 < t)
    (hDrop : (calculatePriceChange oldPrice (some n)).isDropped = true)
    (hnt : n ≤ t) :
    (shouldTriggerAlert product oldPrice (some n)).shouldAlert = true ∧
    (shouldTriggerAlert product oldPrice (some n)).priority = some Priority.high ∧
    (shouldSendNotification product oldPrice (some n)).notify = true := by
  obtain ⟨o, n2, ho', hn', hopos, hn2pos, hgap, hdir, hpc, hmean⟩ :=
    calculatePriceChange_isDropped_spec oldPrice (some n) hDrop
  have hnn : n = n2 := Option.some.inj hn'
  have hnpos : 0 < n := hnn ▸ hn2pos
  have hnosupp : ¬ (optTruthy product.last_alert_price = true ∧
      product.last_alert_price.getD 0 ≤ (some n).getD 0) := by
    simp [hLap, optTruthy]
  have htarget : optTruthy product.target_price = true ∧
      (some n).getD 0 ≤ product.target_price.getD 0 := by
    rw [hTarget]
    exact ⟨by simp [optTruthy, ht.ne'], by simpa using hnt⟩
  refine ⟨?_, ?_, ?_⟩
  · unfold shouldTriggerAlert
    rw [if_neg (not_not_intro hDrop), if_neg hnosupp, if_pos htarget]
  · unfold shouldTriggerAlert
    rw [if_neg (not_not_intro hDrop), if_neg hnosupp, if_pos htarget]
  · have hguard : ¬ (¬ optTruthy (some n) = true ∨ ¬ optTruthy oldPrice = true) := by
      rw [ho']
      push_neg
      exact ⟨by simp [optTruthy, hnpos.ne'], by simp [optTruthy, hopos.ne']⟩
    unfold shouldSendNotification
    rw [if_neg hguard, if_neg hnosupp, if_pos htarget]

/-- Witness for C7 at target 500, oldPrice 485, newPrice 480: the drop is below
MIN_DROP_PERCENT yet the decision is alert with priority high, and the sweep's
decision notifies too. -/
theorem target_reached_alert_high_witness :
    (calculatePriceChange (some 485) (some 480)).percentChange <
      MIN_DROP_PERCENT ∧
    (shouldTriggerAlert cTargetProduct485 (some 485) (some 480)).shouldAlert = true ∧
    (shouldTriggerAlert cTargetProduct485 (some 485) (some 480)).priority =
      some Priority.high ∧
    (shouldSendNotification cTargetProduct485 (some 485) (some 480)).notify = true :=
  ⟨by norm_num [calculatePriceChange, optTruthy, neutralPriceChange,
      MIN_DROP_PERCENT],
   target_reached_alert_high cTargetProduct485 (some 485) 480 500 rfl rfl
     (by norm_num)
     (by norm_num [calculatePriceChange, optTruthy, neutralPriceChange])
     (by norm_num)⟩

/-- Claim C8: with an effective DAILY interval, a product is eligible exactly
when it was never checked or at least 20 hours have passed since the last
check. -/
theorem daily_eligibility_iff (now : Instant) (user : User) (product : Product)
    (h : effectiveCheckInterval user = CheckInterval.DAILY) :
    ((isEligibleForCheck now user product).eligible = true ↔
      (product.last_checked_at = none ∨
        ∃ t, product.last_checked_at = some t ∧
          20 * (1000 * 60 * 60) ≤ now.ms - t)) := by
  unfold isEligibleForCheck
  rw [h]
  cases hlc : product.last_checked_at with
  | none => simp
  | some t =>
    dsimp only
    by_cases hq : (now.ms - t) / (1000 * 60 * 60) < 20
    · rw [if_pos hq]
      refine iff_of_false (by simp) ?_
      rintro (hcon | ⟨t2, ht2, hle⟩)
      · exact Option.noConfusion hcon
      · obtain rfl : t = t2 := Option.some.inj ht2
        exact absurd hle (not_le.mpr ((div_lt_iff₀ (by norm_num)).mp hq))
    · rw [if_neg hq]
      refine iff_of_true rfl (Or.inr ⟨t, rfl, ?_⟩)
      exact (le_div_iff₀ (by norm_num)).mp (not_lt.mp hq)

/-- Witness for C8 at the spec's boundary instances: last checked 20 hours and
1 minute ago is eligible; last checked 19 hours ago is not. -/
theorem daily_eligibility_iff_witness :
    (isEligibleForCheck cNow cUserDaily cProductChecked20h1m).eligible = true ∧
    (isEligibleForCheck cNow cUserDaily cProductChecked19h).eligible = false := by
  constructor
  · exact (daily_eligibility_iff cNow cUserDaily cProductChecked20h1m rfl).mpr
      (Or.inr ⟨200000000 - 72060000, rfl, by norm_num [cNow]⟩)
  · norm_num [isEligibleForCheck, effectiveCheckInterval, cNow, cUserDaily,
      cProductChecked19h]

/-- Attempt counter of the retry loop never exceeds the fuel. -/
theorem scrapeWithRetryGo_count_le (scrape : ℕ → FetchOutcome) :
    ∀ (fuel attempt : ℕ), (scrapeWithRetryGo scrape attempt fuel).2 ≤ fuel := by
  intro fuel
  induction fuel with
  | zero => intro attempt; simp [scrapeWithRetryGo]
  | succ fuel ih =>
    intro attempt
    cases hf : scrape attempt with
    | throws =>
      simp only [scrapeWithRetryGo, hf]
      exact Nat.succ_le_succ (ih (attempt + 1))
    | ok r =>
      by_cases hp : optTruthy r.price = true
      · simp [scrapeWithRetryGo, hf, hp]
      · simp only [scrapeWithRetryGo, hf]
        rw [if_neg hp]
        exact Nat.succ_le_succ (ih (attempt + 1))

/-- If no attempt in the scanned window is usable, the retry loop yields
null. -/
theorem scrapeWithRetryGo_none (scrape : ℕ → FetchOutcome) :
    ∀ (fuel attempt : ℕ),
      (∀ j, attempt ≤ j → j < attempt + fuel → usableOutcome (scrape j) = false) →
      (scrapeWithRetryGo scrape attempt fuel).1 = none := by
  intro fuel
  induction fuel with
  | zero => intro attempt h; simp [scrapeWithRetryGo]
  | succ fuel ih =>
    intro attempt h
    have hcur : usableOutcome (scrape attempt) = false :=
      h attempt le_rfl (by omega)
    cases hf : scrape attempt with
    | throws =>
      simp only [scrapeWithRetryGo, hf]
      exact ih (attempt + 1) (fun j hj1 hj2 => h j (by omega) (by omega))
    | ok r =>
      have hp : optTruthy r.price = false := by
        rw [hf] at hcur
        simpa [usableOutcome] using hcur
      simp only [scrapeWithRetryGo, hf]
      rw [if_neg (by simp [hp])]
      exact ih (attempt + 1) (fun j hj1 hj2 => h j (by omega) (by omega))

/-- The retry loop returns the first usable attempt of the scanned window. -/
theorem scrapeWithRetryGo_first (scrape : ℕ → FetchOutcome) :
    ∀ (fuel attempt i : ℕ) (r : ScrapedData),
      attempt ≤ i → i < attempt + fuel →
      scrape i = FetchOutcome.ok r → optTruthy r.price = true →
      (∀ j, attempt ≤ j → j < i → usableOutcome (scrape j) = false) →
      (scrapeWithRetryGo scrape attempt fuel).1 = some r := by
  intro fuel
  induction fuel with
  | zero =>
    intro attempt i r hai hlt
    omega
  | succ fuel ih =>
    intro attempt i r hai hlt hsc hp hmin
    rcases Nat.eq_or_lt_of_le hai with heq | hlt2
    · subst heq
      simp [scrapeWithRetryGo, hsc, hp]
    · have hcur : usableOutcome (scrape attempt) = false :=
        hmin attempt le_rfl hlt2
      cases hf : scrape attempt with
      | throws =>
        simp only [scrapeWithRetryGo, hf]
        exact ih (attempt + 1) i r hlt2 (by omega) hsc hp
          (fun j hj1 hj2 => hmin j (by omega) hj2)
      | ok r2 =>
        have hp2 : optTruthy r2.price = false := by
          rw [hf] at hcur
          simpa [usableOutcome] using hcur
        simp only [scrapeWithRetryGo, hf]
        rw [if_neg (by simp [hp2])]
        exact ih (attempt + 1) i r hlt2 (by omega) hsc hp
          (fun j hj1 hj2 => hmin j (by omega) hj2)

/-- Claim C6: scrapeWithRetry invokes the fetch at most retries + 1 times,
returns the first result carrying a usable price, and returns null (it cannot
raise: it is total with an Option result) when every attempt throws or yields
no usable price. -/
theorem retry_bounded_first_usable_or_null (scrape : ℕ → FetchOutcome)
    (retries : ℕ) :
    scrapeCallCount scrape retries ≤ retries + 1 ∧
    (∀ i r, i ≤ retries → scrape i = FetchOutcome.ok r →
      optTruthy r.price = true →
      (∀ j, j < i → usableOutcome (scrape j) = false) →
      scrapeWithRetry scrape retries = some r) ∧
    ((∀ i, i ≤ retries → usableOutcome (scrape i) = false) →
      scrapeWithRetry scrape retries = none) := by
  refine ⟨scrapeWithRetryGo_count_le scrape (retries + 1) 0, ?_, ?_⟩
  · intro i r hi hsc hp hmin
    exact scrapeWithRetryGo_first scrape (retries + 1) 0 i r (Nat.zero_le i)
      (by omega) hsc hp (fun j _ hj => hmin j hj)
  · intro hall
    exact scrapeWithRetryGo_none scrape (retries + 1) 0
      (fun j _ hj => hall j (by omega))

/-- Witness for C6: with a first attempt that throws and a second that succeeds
at price 100, the call count stays within 2 and the second result is
returned. -/
theorem retry_bounded_first_usable_or_null_witness :
    scrapeCallCount cScrapeSecondTry 1 ≤ 2 ∧
    scrapeWithRetry cScrapeSecondTry 1 =
      some { title := none, price := some 100 } :=
  ⟨(retry_bounded_first_usable_or_null cScrapeSecondTry 1).1,
   (retry_bounded_first_usable_or_null cScrapeSecondTry 1).2.1 1
     { title := none, price := some 100 } (by norm_num) (by decide) (by decide)
     (fun j hj => by
       have hj0 : j = 0 := Nat.lt_one_iff.mp hj
       subst hj0
       decide)⟩

/-- Claim C5: an eligible candidate whose fetch ends with null (every attempt
threw or was unusable) contributes exactly one error increment, and the sweep
then continues with the remaining candidates from that state. -/
theorem fetch_failure_isolated (now : Instant) (s : SweepState) (c : Candidate)
    (rest : List Candidate)
    (hElig : (isEligibleForCheck now c.user c.product).eligible = true)
    (hFetch : scrapeWithRetry c.fetch 1 = none) :
    runSweepFrom now s (c :: rest) =
      runSweepFrom now
        { s with stats := { s.stats with errors := s.stats.errors + 1 } } rest := by
  have hstep : processProduct now s c =
      { s with stats := { s.stats with errors := s.stats.errors + 1 } } := by
    simp only [processProduct]
    rw [if_neg (by simp [hElig]), hFetch]
  show runSweepFrom now (processProduct now s c) rest = _
  rw [hstep]

/-- Witness for C5: three candidates, the second one's every fetch attempt
throws — the sweep absorbs the failure, finishes with checked 2 and errors 1,
and the third item's price update is persisted. -/
theorem fetch_failure_isolated_witness :
    (runSweepFrom cNow cStateAfterFirst (cCandThrows 2 :: [cCandOk 3]) =
      runSweepFrom cNow
        { cStateAfterFirst with stats :=
            { cStateAfterFirst.stats with
              errors := cStateAfterFirst.stats.errors + 1 } }
        [cCandOk 3]) ∧
    (runPriceCheckByInterval cNow
      [cCandOk 1, cCandThrows 2, cCandOk 3]).stats.productsChecked = 2 ∧
    (runPriceCheckByInterval cNow
      [cCandOk 1, cCandThrows 2, cCandOk 3]).stats.errors = 1 ∧
    WriteEvent.priceUpdate 3 90 none ∈
      (runPriceCheckByInterval cNow [cCandOk 1, cCandThrows 2, cCandOk 3]).writes :=
  ⟨fetch_failure_isolated cNow cStateAfterFirst (cCandThrows 2) [cCandOk 3]
      (by decide) (by decide),
   by decide, by decide, by decide⟩

/-- Claim C4 (amended): when the notification send throws for an eligible
candidate with a successful fetch and an alerting decision, processing returns
normally with the price update and history entry still committed, checked and
priceDrops incremented by the successful check, and errors, skipped and
notificationsSent untouched — no write and no counter records the failure, and
the alert state is not updated. -/
theorem notify_failure_isolated (now : Instant) (s : SweepState) (c : Candidate)
    (sd : ScrapedData)
    (hElig : (isEligibleForCheck now c.user c.product).eligible = true)
    (hFetch : scrapeWithRetry c.fetch 1 = some sd)
    (hPrice : optTruthy sd.price = true)
    (hU : c.updatePriceThrows = false)
    (hH : c.addHistoryThrows = false)
    (hNotify : (shouldSendNotification c.product c.product.current_price
      sd.price).notify = true)
    (hSend : c.sendMessageThrows = true) :
    processProduct now s c =
      { stats :=
          { lastRun := s.stats.lastRun
            productsChecked := s.stats.productsChecked + 1
            productsSkipped := s.stats.productsSkipped
            priceDrops := s.stats.priceDrops + 1
            notificationsSent := s.stats.notificationsSent
            errors := s.stats.errors }
        writes := s.writes ++
          [WriteEvent.priceUpdate c.product.id (sd.price.getD 0) sd.title,
            WriteEvent.historyAppend c.product.id (sd.price.getD 0)] } := by
  simp only [processProduct]
  rw [if_neg (by simp [hElig]), hFetch]
  simp only []
  rw [if_neg (by simp [hPrice]), if_neg (by simp [hU]), if_neg (by simp [hH]),
    if_pos hNotify, if_pos (by simp [hSend])]
  simp [List.append_assoc]

/-- Witness for C4: the single-candidate run whose notifier throws, evaluated
concretely. -/
theorem notify_failure_isolated_witness :
    processProduct cNow { stats := initialRunStats cNow, writes := [] }
        (cCandNotifyFail 1) =
      { stats :=
          { lastRun := (initialRunStats cNow).lastRun
            productsChecked := (initialRunStats cNow).productsChecked + 1
            productsSkipped := (initialRunStats cNow).productsSkipped
            priceDrops := (initialRunStats cNow).priceDrops + 1
            notificationsSent := (initialRunStats cNow).notificationsSent
            errors := (initialRunStats cNow).errors }
        writes := [] ++
          [WriteEvent.priceUpdate 1 90 none, WriteEvent.historyAppend 1 90] } :=
  notify_failure_isolated cNow { stats := initialRunStats cNow, writes := [] }
    (cCandNotifyFail 1) { title := none, price := some 90 }
    (by decide) (by decide) (by decide) rfl rfl (by decide) rfl

/-- Counterexample to C4 as stated: the run statistics carry no notify-failed
counter.  The failing-notifier run ends with every counter equal to the
successful-notifier run except notificationsSent, which simply stays 0 —
nothing is incremented by the failure. -/
theorem no_notify_failure_counter :
    (runPriceCheckByInterval cNow [cCandNotifyFail 1]).stats =
      { lastRun := some 200000000, productsChecked := 1, productsSkipped := 0
        priceDrops := 1, notificationsSent := 0, errors := 0 } ∧
    (runPriceCheckByInterval cNow [cCandNotifyFail 1]).stats =
      { (runPriceCheckByInterval cNow [cCandOk 1]).stats with
        notificationsSent := 0 } := by
  refine ⟨by decide, by decide⟩

/-- Per-item counter invariant: one pass of the loop body increments exactly
one of checked, skipped, errors. -/
theorem processProduct_counts (now : Instant) (s : SweepState) (c : Candidate) :
    (processProduct now s c).stats.productsChecked +
      (processProduct now s c).stats.productsSkipped +
      (processProduct now s c).stats.errors =
    s.stats.productsChecked + s.stats.productsSkipped + s.stats.errors + 1 := by
  simp only [processProduct]
  repeat' split
  all_goals dsimp only
  all_goals omega

/-- Folding the loop body over any candidate list adds exactly the list length
to checked + skipped + errors. -/
theorem runSweepFrom_counts (now : Instant) (cs : List Candidate) :
    ∀ s : SweepState,
      (runSweepFrom now s cs).stats.productsChecked +
        (runSweepFrom now s cs).stats.productsSkipped +
        (runSweepFrom now s cs).stats.errors =
      s.stats.productsChecked + s.stats.productsSkipped + s.stats.errors +
        cs.length := by
  induction cs with
  | nil => intro s; simp [runSweepFrom]
  | cons c rest ih =>
    intro s
    have h1 := processProduct_counts now s c
    have h2 := ih (processProduct now s c)
    have hstep : runSweepFrom now s (c :: rest) =
        runSweepFrom now (processProduct now s c) rest := rfl
    rw [hstep, h2]
    simp only [List.length_cons]
    omega

/-- Claim C10: every candidate increments exactly one of checked, skipped,
errors, so after a sweep these three counters sum to the number of candidates
processed (a failed notification changes none of them, being covered by the
per-item equality). -/
theorem sweep_counter_invariant :
    (∀ (now : Instant) (s : SweepState) (c : Candidate),
      (processProduct now s c).stats.productsChecked +
        (processProduct now s c).stats.productsSkipped +
        (processProduct now s c).stats.errors =
      s.stats.productsChecked + s.stats.productsSkipped + s.stats.errors + 1) ∧
    (∀ (now : Instant) (cs : List Candidate),
      (runPriceCheckByInterval now cs).stats.productsChecked +
        (runPriceCheckByInterval now cs).stats.productsSkipped +
        (runPriceCheckByInterval now cs).stats.errors = cs.length) := by
  refine ⟨processProduct_counts, ?_⟩
  intro now cs
  have h := runSweepFrom_counts now cs { stats := initialRunStats now, writes := [] }
  simpa [runPriceCheckByInterval, initialRunStats] using h

end TrackIt
